import Mathlib

/-!
Verification of the pathfinder query-plane core: the sequencer error
translator (`crates/pathfinder/src/sequencer/error.rs`), the JSON-RPC
dispatcher (`crates/pathfinder/src/rpc.rs`) and the p2p header codec
(`crates/p2p_proto/src/header.rs`), shallowly embedded in Lean.
Field elements, hashes and addresses are modelled as natural numbers;
parts of the repository that live outside the three core files (the
reply `ErrorCode` numeric table, the serde parameter binding, the
derived protobuf conversions and the common p2p types) are modelled
from the specification and marked as such in their doc comments.
-/

namespace Pathfinder

/-- Boolean test that the first character list is an initial segment of the second. -/
def charsLead : List Char → List Char → Bool
  | [], _ => true
  | _ :: _, [] => false
  | a :: as, b :: bs => a == b && charsLead as bs

/-- Boolean test that the first character list occurs contiguously inside the second. -/
def charsContain (needle : List Char) : List Char → Bool
  | [] => needle.isEmpty
  | b :: bs => charsLead needle (b :: bs) || charsContain needle bs

/-- Embedding of Rust `str::contains` on substrings: `containsSub hay needle` holds
when `needle` occurs contiguously inside `hay`. -/
def containsSub (hay needle : String) : Bool :=
  charsContain needle.data hay.data

/-! Error translator data model, from `crates/pathfinder/src/sequencer/error.rs`. -/

/-- Starknet specific error codes reported by the sequencer, from
`enum StarknetErrorCode` in `sequencer/error.rs`. -/
inductive StarknetErrorCode where
  | BlockNotFound
  | EntryPointNotFound
  | OutOfRangeContractAddress
  | OutOfRangeStorageKey
  | SchemaValidationError
  | TransactionFailed
  | UninitializedContract
  | OutOfRangeBlockHash
  | OutOfRangeTransactionHash
  | MalformedRequest
  deriving DecidableEq

/-- Starknet sequencer error data, from `struct StarknetError` in `sequencer/error.rs`. -/
structure StarknetError where
  code : StarknetErrorCode
  message : String
  deriving DecidableEq

/-- Sequencer errors, from `enum SequencerError` in `sequencer/error.rs`.
The payloads of the deserialization, parse and transport variants are
modelled by their display message strings. -/
inductive SequencerError where
  | DeserializationError (msg : String)
  | ParseError (msg : String)
  | StarknetError (e : Pathfinder.StarknetError)
  | TransportError (msg : String)
  deriving DecidableEq

/-- Modelled from the spec: the JSON-RPC error envelope. `invalidParams` and
`methodNotFound` are the standard JSON-RPC client-side errors, `callFailed`
is the generic call-failed error carrying the preserved message, and
`custom` is a Starknet-specific error with an explicit numeric code. -/
inductive RpcError where
  | invalidParams
  | methodNotFound
  | callFailed (msg : String)
  | custom (code : Int) (message : String)
  deriving DecidableEq

/-- Modelled from the spec: the fixed set of Starknet-specific RPC error codes
of `rpc::types::reply::ErrorCode` (section 4.1 of the spec). -/
inductive ErrorCode where
  | ContractNotFound
  | InvalidMessageSelector
  | InvalidCallData
  | InvalidStorageKey
  | InvalidBlockHash
  | InvalidTransactionHash
  | InvalidBlockNumber
  deriving DecidableEq

/-- Modelled from the spec: the numeric value of each reply `ErrorCode`
(the table in section 4.1, confirmed by the constants in the repository's
RPC tests). -/
def ErrorCode.num : ErrorCode → Int
  | .ContractNotFound => 20
  | .InvalidMessageSelector => 21
  | .InvalidCallData => 22
  | .InvalidStorageKey => 23
  | .InvalidBlockHash => 24
  | .InvalidTransactionHash => 25
  | .InvalidBlockNumber => 26

/-- Modelled from the spec: the short message paired with each reply `ErrorCode`. -/
def ErrorCode.msg : ErrorCode → String
  | .ContractNotFound => "Contract not found"
  | .InvalidMessageSelector => "Invalid message selector"
  | .InvalidCallData => "Invalid call data"
  | .InvalidStorageKey => "Invalid storage key"
  | .InvalidBlockHash => "Invalid block hash"
  | .InvalidTransactionHash => "Invalid transaction hash"
  | .InvalidBlockNumber => "Invalid block number"

/-- Modelled from the spec: the `From` conversion of a reply `ErrorCode` into the
JSON-RPC error envelope used by `ErrorCode::into()` in the translator. -/
def ErrorCode.toRpcError (c : ErrorCode) : RpcError :=
  .custom c.num c.msg

/-- Modelled from the spec: the `RpcErrorCode::InvalidTransactionHashStr` constant. -/
def invalidTransactionHashStr : String := "Invalid transaction hash"

/-- Variant name of a sequencer error code as shown by the derived Rust
`Debug` formatting. -/
def StarknetErrorCode.debugName : StarknetErrorCode → String
  | .BlockNotFound => "BlockNotFound"
  | .EntryPointNotFound => "EntryPointNotFound"
  | .OutOfRangeContractAddress => "OutOfRangeContractAddress"
  | .OutOfRangeStorageKey => "OutOfRangeStorageKey"
  | .SchemaValidationError => "SchemaValidationError"
  | .TransactionFailed => "TransactionFailed"
  | .UninitializedContract => "UninitializedContract"
  | .OutOfRangeBlockHash => "OutOfRangeBlockHash"
  | .OutOfRangeTransactionHash => "OutOfRangeTransactionHash"
  | .MalformedRequest => "MalformedRequest"

/-- Lowercase hexadecimal digit character for a value below 16. -/
def hexDigitChar (n : Nat) : Char :=
  if n < 10 then Char.ofNat ('0'.toNat + n) else Char.ofNat ('a'.toNat + n - 10)

/-- Minimal lowercase hexadecimal rendering of a control-character code
(values below 32 and 127 only need at most two digits). -/
def controlHex (n : Nat) : List Char :=
  if n < 16 then [hexDigitChar n] else [hexDigitChar (n / 16), hexDigitChar (n % 16)]

/-- Escaping of one character as done by Rust's `Debug` formatting of a string:
quotes and backslashes get a backslash, tab, carriage return and line feed use
their named escapes, the remaining ASCII control characters (and delete)
become a braced unicode escape. Non-ASCII characters are carried verbatim:
the Unicode printability tables Rust consults for them are not modelled. -/
def escapeChar (c : Char) : List Char :=
  if c = '"' then ['\\', '"']
  else if c = '\\' then ['\\', '\\']
  else if c = '\n' then ['\\', 'n']
  else if c = '\r' then ['\\', 'r']
  else if c = '\t' then ['\\', 't']
  else if c.toNat < 32 ∨ c.toNat = 127 then
    ['\\', 'u', '\x7b'] ++ controlHex c.toNat ++ ['\x7d']
  else [c]

/-- Characterwise escaping of a character list. -/
def escapeChars : List Char → List Char
  | [] => []
  | c :: cs => escapeChar c ++ escapeChars cs

/-- Escaping of a string as done by Rust's `Debug` formatting of its contents. -/
def debugEscape (s : String) : String :=
  ⟨escapeChars s.data⟩

/-- Display of a `StarknetError`, from the `Display` impl in `sequencer/error.rs`,
which forwards to the derived `Debug` formatting; the message appears in
`Debug`-escaped form between the quotes. -/
def StarknetError.debugFmt (e : StarknetError) : String :=
  "StarknetError \x7b code: " ++ e.code.debugName ++ ", message: \"" ++
    debugEscape e.message ++ "\" \x7d"

/-- Error translator, from `impl From<SequencerError> for rpc::Error` in
`sequencer/error.rs`. The final two match arms together embed the Rust
wildcard arm: `SchemaValidationError` and `MalformedRequest` without the
block-range substring fall through to the generic call-failed error. -/
def SequencerError.toRpcError : SequencerError → RpcError
  | .DeserializationError m => .callFailed m
  | .ParseError m => .callFailed m
  | .StarknetError e =>
    match e.code with
    | .OutOfRangeBlockHash | .BlockNotFound => ErrorCode.InvalidBlockHash.toRpcError
    | .OutOfRangeContractAddress | .UninitializedContract => ErrorCode.ContractNotFound.toRpcError
    | .OutOfRangeTransactionHash =>
        RpcError.custom ErrorCode.InvalidTransactionHash.num invalidTransactionHashStr
    | .OutOfRangeStorageKey => ErrorCode.InvalidStorageKey.toRpcError
    | .TransactionFailed => ErrorCode.InvalidCallData.toRpcError
    | .EntryPointNotFound => ErrorCode.InvalidMessageSelector.toRpcError
    | .MalformedRequest =>
        if containsSub e.message "Block ID should be in the range" then
          ErrorCode.InvalidBlockNumber.toRpcError
        else
          RpcError.callFailed e.debugFmt
    | .SchemaValidationError => RpcError.callFailed e.debugFmt
  | .TransportError m => .callFailed m

/-- Numeric JSON-RPC code of an error envelope; the standard client-side codes
and the generic call-failed code are fixed by the JSON-RPC layer. -/
def RpcError.rpcCode : RpcError → Int
  | .invalidParams => -32602
  | .methodNotFound => -32601
  | .callFailed _ => -32000
  | .custom c _ => c

/-! JSON values and the RPC dispatcher, from `crates/pathfinder/src/rpc.rs`. -/

/-- JSON values, as carried by the JSON-RPC request parameters. -/
inductive Json where
  | null
  | bool (b : Bool)
  | num (n : Int)
  | str (s : String)
  | arr (elems : List Json)
  | obj (fields : List (String × Json))

/-- Block tags, from `rpc::types::Tag` as used by the dispatcher. -/
inductive Tag where
  | Latest
  | Pending
  deriving DecidableEq

/-- Block hash reference, from `rpc::types::BlockHashOrTag`: a concrete hash
felt or a symbolic tag. -/
inductive BlockHashOrTag where
  | Hash (h : Nat)
  | Tag (t : Pathfinder.Tag)
  deriving DecidableEq

/-- Block number reference, from `rpc::types::BlockNumberOrTag`. -/
inductive BlockNumberOrTag where
  | Number (n : Nat)
  | Tag (t : Pathfinder.Tag)
  deriving DecidableEq

/-- Response scope for block queries, from `rpc::types::request::BlockResponseScope`. -/
inductive BlockResponseScope where
  | TransactionHashes
  | FullTransactions
  | FullTransactionAndReceipts
  deriving DecidableEq

/-- Call request payload, from `rpc::types::request::Call`. -/
structure Call where
  contract_address : Nat
  calldata : List Nat
  entry_point_selector : Nat
  deriving DecidableEq

/-- Value of a hexadecimal digit character. -/
def hexDigitVal (c : Char) : Option Nat :=
  if '0' ≤ c ∧ c ≤ '9' then some (c.toNat - '0'.toNat)
  else if 'a' ≤ c ∧ c ≤ 'f' then some (c.toNat - 'a'.toNat + 10)
  else if 'A' ≤ c ∧ c ≤ 'F' then some (c.toNat - 'A'.toNat + 10)
  else none

/-- Accumulating hexadecimal evaluation of a character list. -/
def hexVal : List Char → Nat → Option Nat
  | [], acc => some acc
  | c :: cs, acc =>
    match hexDigitVal c with
    | some d => hexVal cs (16 * acc + d)
    | none => none

/-- Parse a `0x`-prefixed hexadecimal string into a natural number. -/
def parseHexNat (s : String) : Option Nat :=
  match s.data with
  | '0' :: 'x' :: rest =>
    match rest with
    | [] => none
    | _ :: _ => hexVal rest 0
  | _ => none

/-- The Starknet field order: `2 ^ 251 + 17 * 2 ^ 192 + 1`. -/
def starkPrime : Nat := 2 ^ 251 + 17 * 2 ^ 192 + 1

/-- Modelled from the spec: a field element parses from a `0x` hex string and is
range-checked against the Starknet field order by its deserializer. -/
def parseFelt (s : String) : Option Nat :=
  match parseHexNat s with
  | some n => if n < starkPrime then some n else none
  | none => none

/-- Felt parameter parser over JSON values. -/
def parseFeltJson : Json → Option Nat
  | .str s => parseFelt s
  | _ => none

/-- Modelled from the spec: a block hash parameter is either the literal tag
string `latest` or `pending`, or a hex string holding a field element. -/
def parseBlockHashOrTag : Json → Option BlockHashOrTag
  | .str s =>
    if s = "latest" then some (.Tag .Latest)
    else if s = "pending" then some (.Tag .Pending)
    else (parseFelt s).map .Hash
  | _ => none

/-- Modelled from the spec: a block number parameter is either a tag string or
an unsigned 64-bit JSON integer. -/
def parseBlockNumberOrTag : Json → Option BlockNumberOrTag
  | .num n => if 0 ≤ n ∧ n < 2 ^ 64 then some (.Number n.toNat) else none
  | .str s =>
    if s = "latest" then some (.Tag .Latest)
    else if s = "pending" then some (.Tag .Pending)
    else none
  | _ => none

/-- Modelled from the spec: a transaction index parameter is an unsigned
64-bit JSON integer. -/
def parseIndex : Json → Option Nat
  | .num n => if 0 ≤ n ∧ n < 2 ^ 64 then some n.toNat else none
  | _ => none

/-- Modelled from the spec: the three discrete response-scope strings. -/
def parseScope : Json → Option BlockResponseScope
  | .str s =>
    if s = "TXN_HASH" then some .TransactionHashes
    else if s = "FULL_TXNS" then some .FullTransactions
    else if s = "FULL_TXN_AND_RECEIPTS" then some .FullTransactionAndReceipts
    else none
  | _ => none

/-- Optional response scope: JSON `null` stands for an absent value. -/
def parseOptScope : Json → Option (Option BlockResponseScope)
  | .null => some none
  | j => (parseScope j).map some

/-- Modelled from the spec: the `key` parameter of `getStorageAt` is deserialized
into a 256-bit container (`OverflowingStorageAddress` over `H256`) with no
field-order range check. -/
def parseOverflowingKey : Json → Option Nat
  | .str s =>
    match parseHexNat s with
    | some n => if n < 2 ^ 256 then some n else none
    | none => none
  | _ => none

/-- Field lookup in a JSON object. -/
def lookupField (fs : List (String × Json)) (name : String) : Option Json :=
  List.lookup name fs

/-- Parse a list of felt JSON values elementwise. -/
def parseFeltList : List Json → Option (List Nat)
  | [] => some []
  | j :: js =>
    (parseFeltJson j).bind fun n => (parseFeltList js).map fun ns => n :: ns

/-- Modelled from the spec: the `Call` request object with its three named fields. -/
def parseCall : Json → Option Call
  | .obj fs =>
    (lookupField fs "contract_address").bind fun aj =>
    (parseFeltJson aj).bind fun addr =>
    (lookupField fs "calldata").bind fun cj =>
    (match cj with | .arr xs => parseFeltList xs | _ => none).bind fun cd =>
    (lookupField fs "entry_point_selector").bind fun ej =>
    (parseFeltJson ej).map fun sel => { contract_address := addr, calldata := cd, entry_point_selector := sel }
  | _ => none

/-- Lift a parse result into the dispatcher, mapping failure to the JSON-RPC
invalid-params error as the parameter binding layer does. -/
def requireParam {α : Type} (o : Option α) : Except RpcError α :=
  match o with
  | some v => .ok v
  | none => .error .invalidParams

/-- Combine two parsed parameters, failing with invalid-params when either is
missing or malformed. -/
def bindTwo {α β : Type} (x : Option α) (y : Option β) : Except RpcError (α × β) :=
  requireParam (x.bind fun a => y.bind fun b => some (a, b))

/-- Combine three parsed parameters. -/
def bindThree {α β γ : Type} (x : Option α) (y : Option β) (z : Option γ) :
    Except RpcError (α × β × γ) :=
  requireParam (x.bind fun a => y.bind fun b => z.bind fun c => some (a, b, c))

/-- Optional named field: an absent key parses to `none`. -/
def optField {β : Type} (fs : List (String × Json)) (name : String)
    (p : Json → Option (Option β)) : Option (Option β) :=
  match lookupField fs name with
  | none => some none
  | some j => p j

/-- Modelled from the spec: serde-style binding of a single-parameter method,
by name from an object or by position from an array. -/
def args1 {α : Type} (nm : String) (p : Json → Option α) (params : Json) :
    Except RpcError α :=
  match params with
  | .obj fs => requireParam ((lookupField fs nm).bind p)
  | .arr [a] => requireParam (p a)
  | _ => .error .invalidParams

/-- Modelled from the spec: binding of a mandatory parameter followed by an
optional one, by name or by position. -/
def args1opt {α β : Type} (nm1 : String) (p1 : Json → Option α) (nm2 : String)
    (p2 : Json → Option (Option β)) (params : Json) :
    Except RpcError (α × Option β) :=
  match params with
  | .obj fs => bindTwo ((lookupField fs nm1).bind p1) (optField fs nm2 p2)
  | .arr [a] => bindTwo (p1 a) (some none)
  | .arr [a, b] => bindTwo (p1 a) (p2 b)
  | _ => .error .invalidParams

/-- Modelled from the spec: binding of two mandatory parameters. -/
def args2 {α β : Type} (nm1 : String) (p1 : Json → Option α) (nm2 : String)
    (p2 : Json → Option β) (params : Json) : Except RpcError (α × β) :=
  match params with
  | .obj fs => bindTwo ((lookupField fs nm1).bind p1) ((lookupField fs nm2).bind p2)
  | .arr [a, b] => bindTwo (p1 a) (p2 b)
  | _ => .error .invalidParams

/-- Modelled from the spec: binding of three mandatory parameters. -/
def args3 {α β γ : Type} (nm1 : String) (p1 : Json → Option α) (nm2 : String)
    (p2 : Json → Option β) (nm3 : String) (p3 : Json → Option γ) (params : Json) :
    Except RpcError (α × β × γ) :=
  match params with
  | .obj fs =>
    bindThree ((lookupField fs nm1).bind p1) ((lookupField fs nm2).bind p2)
      ((lookupField fs nm3).bind p3)
  | .arr [a, b, c] => bindThree (p1 a) (p2 b) (p3 c)
  | _ => .error .invalidParams

/-- Handler context of the dispatcher, from `rpc::api::RpcApi` as invoked by
`run_server`: one abstract handler per registered method. -/
structure RpcApi where
  get_block_by_hash : BlockHashOrTag → Option BlockResponseScope → Except RpcError Json
  get_block_by_number : BlockNumberOrTag → Option BlockResponseScope → Except RpcError Json
  get_state_update_by_hash : BlockHashOrTag → Except RpcError Json
  get_storage_at : Nat → Nat → BlockHashOrTag → Except RpcError Json
  get_transaction_by_hash : Nat → Except RpcError Json
  get_transaction_by_block_hash_and_index : BlockHashOrTag → Nat → Except RpcError Json
  get_transaction_by_block_number_and_index : BlockNumberOrTag → Nat → Except RpcError Json
  get_transaction_receipt : Nat → Except RpcError Json
  get_code : Nat → Except RpcError Json
  get_block_transaction_count_by_hash : BlockHashOrTag → Except RpcError Json
  get_block_transaction_count_by_number : BlockNumberOrTag → Except RpcError Json
  call : Pathfinder.Call → BlockHashOrTag → Except RpcError Json
  block_number : Except RpcError Json
  chain_id : Except RpcError Json
  pending_transactions : Except RpcError Json
  protocol_version : Except RpcError Json

/-- RPC dispatcher, from the method registrations of `run_server` in `rpc.rs`.
Each branch binds the method's `NamedArgs` and invokes the matching handler;
`starknet_getStateUpdateByHash` reproduces the explicit `is_object` branch of
the source, and `starknet_syncing` invokes the `chain_id` handler exactly as
registered in the source. -/
def dispatch (api : RpcApi) (method : String) (params : Json) : Except RpcError Json :=
  if method = "starknet_getBlockByHash" then
    (args1opt "block_hash" parseBlockHashOrTag "requested_scope" parseOptScope params).bind
      fun x => api.get_block_by_hash x.1 x.2
  else if method = "starknet_getBlockByNumber" then
    (args1opt "block_number" parseBlockNumberOrTag "requested_scope" parseOptScope params).bind
      fun x => api.get_block_by_number x.1 x.2
  else if method = "starknet_getStateUpdateByHash" then
    (match params with
     | .obj fs => requireParam ((lookupField fs "block_hash").bind parseBlockHashOrTag)
     | .arr [a] => requireParam (parseBlockHashOrTag a)
     | _ => .error .invalidParams).bind
      fun bh => api.get_state_update_by_hash bh
  else if method = "starknet_getStorageAt" then
    (args3 "contract_address" parseFeltJson "key" parseOverflowingKey
       "block_hash" parseBlockHashOrTag params).bind
      fun x => api.get_storage_at x.1 x.2.1 x.2.2
  else if method = "starknet_getTransactionByHash" then
    (args1 "transaction_hash" parseFeltJson params).bind
      fun h => api.get_transaction_by_hash h
  else if method = "starknet_getTransactionByBlockHashAndIndex" then
    (args2 "block_hash" parseBlockHashOrTag "index" parseIndex params).bind
      fun x => api.get_transaction_by_block_hash_and_index x.1 x.2
  else if method = "starknet_getTransactionByBlockNumberAndIndex" then
    (args2 "block_number" parseBlockNumberOrTag "index" parseIndex params).bind
      fun x => api.get_transaction_by_block_number_and_index x.1 x.2
  else if method = "starknet_getTransactionReceipt" then
    (args1 "transaction_hash" parseFeltJson params).bind
      fun h => api.get_transaction_receipt h
  else if method = "starknet_getCode" then
    (args1 "contract_address" parseFeltJson params).bind
      fun a => api.get_code a
  else if method = "starknet_getBlockTransactionCountByHash" then
    (args1 "block_hash" parseBlockHashOrTag params).bind
      fun bh => api.get_block_transaction_count_by_hash bh
  else if method = "starknet_getBlockTransactionCountByNumber" then
    (args1 "block_number" parseBlockNumberOrTag params).bind
      fun bn => api.get_block_transaction_count_by_number bn
  else if method = "starknet_call" then
    (args2 "request" parseCall "block_hash" parseBlockHashOrTag params).bind
      fun x => api.call x.1 x.2
  else if method = "starknet_blockNumber" then api.block_number
  else if method = "starknet_chainId" then api.chain_id
  else if method = "starknet_pendingTransactions" then api.pending_transactions
  else if method = "starknet_protocolVersion" then api.protocol_version
  else if method = "starknet_syncing" then api.chain_id
  else .error .methodNotFound

/-- Trivial handler context whose every handler succeeds with `null`. -/
def emptyApi : RpcApi where
  get_block_by_hash := fun _ _ => .ok .null
  get_block_by_number := fun _ _ => .ok .null
  get_state_update_by_hash := fun _ => .ok .null
  get_storage_at := fun _ _ _ => .ok .null
  get_transaction_by_hash := fun _ => .ok .null
  get_transaction_by_block_hash_and_index := fun _ _ => .ok .null
  get_transaction_by_block_number_and_index := fun _ _ => .ok .null
  get_transaction_receipt := fun _ => .ok .null
  get_code := fun _ => .ok .null
  get_block_transaction_count_by_hash := fun _ => .ok .null
  get_block_transaction_count_by_number := fun _ => .ok .null
  call := fun _ _ => .ok .null
  block_number := .ok .null
  chain_id := .ok .null
  pending_transactions := .ok .null
  protocol_version := .ok .null

/-- Handler context whose every handler reports a backend failure; used to
witness that rejected parameters never reach a backend. -/
def failApi : RpcApi where
  get_block_by_hash := fun _ _ => .error (.callFailed "backend")
  get_block_by_number := fun _ _ => .error (.callFailed "backend")
  get_state_update_by_hash := fun _ => .error (.callFailed "backend")
  get_storage_at := fun _ _ _ => .error (.callFailed "backend")
  get_transaction_by_hash := fun _ => .error (.callFailed "backend")
  get_transaction_by_block_hash_and_index := fun _ _ => .error (.callFailed "backend")
  get_transaction_by_block_number_and_index := fun _ _ => .error (.callFailed "backend")
  get_transaction_receipt := fun _ => .error (.callFailed "backend")
  get_code := fun _ => .error (.callFailed "backend")
  get_block_transaction_count_by_hash := fun _ => .error (.callFailed "backend")
  get_block_transaction_count_by_number := fun _ => .error (.callFailed "backend")
  call := fun _ _ => .error (.callFailed "backend")
  block_number := .error (.callFailed "backend")
  chain_id := .error (.callFailed "backend")
  pending_transactions := .error (.callFailed "backend")
  protocol_version := .error (.callFailed "backend")

/-- Modelled from the spec: the `get_storage_at` handler narrows the wide
256-bit key to a field element; keys whose high-order bits do not fit the
251-bit field element are rejected with `ErrorCode.InvalidStorageKey`
(code 23) before the backend is consulted, as the repository's
`overflowing_key` test requires. -/
def get_storage_at_model (backend : Nat → Nat → BlockHashOrTag → Except RpcError Json)
    (addr key : Nat) (bh : BlockHashOrTag) : Except RpcError Json :=
  if key < 2 ^ 251 then backend addr key bh
  else .error ErrorCode.InvalidStorageKey.toRpcError

/-- Handler context running the modelled `get_storage_at` over an abstract
backend, with trivial handlers elsewhere. -/
def storageApi (backend : Nat → Nat → BlockHashOrTag → Except RpcError Json) : RpcApi :=
  { emptyApi with get_storage_at := get_storage_at_model backend }

/-! Header protocol codec, from `crates/p2p_proto/src/header.rs`. Field
elements, hashes, addresses and commitment roots are opaque 32-byte field
elements per the spec glossary, modelled as natural numbers. The protobuf
layer is modelled at the prost message level: a message-typed field is an
`Option`, a `oneof` selector is an `Option` over a sum, and scalars are
carried directly. -/

/-- Modelled from the spec: a consensus signature is an opaque tuple of two
field elements, from `common::ConsensusSignature`. -/
structure ConsensusSignature where
  r : Nat
  s : Nat
  deriving DecidableEq

/-- Wire form of a consensus signature: both field elements are message-typed. -/
structure ProtoConsensusSignature where
  r : Option Nat
  s : Option Nat
  deriving DecidableEq

/-- Modelled from the spec: a block identifier carrying a number and a hash,
from `common::BlockId`. -/
structure BlockId where
  number : Nat
  hash : Nat
  deriving DecidableEq

/-- Wire form of a block identifier: the hash is message-typed. -/
structure ProtoBlockId where
  number : Nat
  hash : Option Nat
  deriving DecidableEq

/-- Iteration direction, from `common::Iteration`. -/
inductive Direction where
  | Forward
  | Backward
  deriving DecidableEq

/-- Iteration start point: a block number or a block hash. -/
inductive IterStart where
  | Number (n : Nat)
  | Hash (h : Nat)
  deriving DecidableEq

/-- Modelled from the spec: the iteration descriptor `(start, direction, step,
limit)` of a header request, from `common::Iteration`. -/
structure Iteration where
  start : IterStart
  direction : Direction
  step : Nat
  limit : Nat
  deriving DecidableEq

/-- Wire form of the iteration start `oneof`: a hash start is message-typed. -/
inductive ProtoIterStart where
  | Number (n : Nat)
  | Hash (h : Option Nat)
  deriving DecidableEq

/-- Wire form of an iteration descriptor: the start `oneof` is optional. -/
structure ProtoIteration where
  start : Option ProtoIterStart
  direction : Direction
  step : Nat
  limit : Nat
  deriving DecidableEq

/-- Signed block header record, from `struct SignedBlockHeader` in `header.rs`. -/
structure SignedBlockHeader where
  block_hash : Nat
  parent_hash : Nat
  number : Nat
  time : Nat
  sequencer_address : Nat
  state_diff_commitment : Nat
  state : Nat
  transactions : Nat
  events : Nat
  receipts : Nat
  protocol_version : String
  gas_price : Nat
  num_storage_diffs : Nat
  num_nonce_updates : Nat
  num_declared_classes : Nat
  num_deployed_contracts : Nat
  signatures : List ConsensusSignature
  deriving DecidableEq

/-- Wire form of a signed block header: every field-element, address and
commitment field is message-typed and hence optional; counters and the
version string are scalars; signatures are a repeated submessage. -/
structure ProtoSignedBlockHeader where
  block_hash : Option Nat
  parent_hash : Option Nat
  number : Nat
  time : Nat
  sequencer_address : Option Nat
  state_diff_commitment : Option Nat
  state : Option Nat
  transactions : Option Nat
  events : Option Nat
  receipts : Option Nat
  protocol_version : String
  gas_price : Option Nat
  num_storage_diffs : Nat
  num_nonce_updates : Nat
  num_declared_classes : Nat
  num_deployed_contracts : Nat
  signatures : List ProtoConsensusSignature
  deriving DecidableEq

/-- Header request message, from `struct BlockHeadersRequest` in `header.rs`. -/
structure BlockHeadersRequest where
  iteration : Iteration
  deriving DecidableEq

/-- Wire form of a header request: the iteration descriptor is message-typed. -/
structure ProtoBlockHeadersRequest where
  iteration : Option ProtoIteration
  deriving DecidableEq

/-- Header response message, from `enum BlockHeadersResponse` in `header.rs`:
either a signed header or the terminal `Fin` marker. -/
inductive BlockHeadersResponse where
  | Header (h : SignedBlockHeader)
  | Fin
  deriving DecidableEq

/-- Wire form of the `header_message` `oneof` payload. -/
inductive ProtoHeaderMessage where
  | Header (h : ProtoSignedBlockHeader)
  | Fin
  deriving DecidableEq

/-- Wire form of a header response: the `header_message` `oneof` is optional. -/
structure ProtoBlockHeadersResponse where
  header_message : Option ProtoHeaderMessage
  deriving DecidableEq

/-- New-block announcement, from `enum NewBlock` in `header.rs`: a bare block
id or a full header response payload. -/
inductive NewBlock where
  | Id (b : BlockId)
  | Header (h : BlockHeadersResponse)
  deriving DecidableEq

/-- Wire form of the `maybe_full` `oneof` payload. -/
inductive ProtoMaybeFull where
  | Id (b : ProtoBlockId)
  | Header (h : ProtoBlockHeadersResponse)
  deriving DecidableEq

/-- Wire form of a new-block announcement: the `maybe_full` `oneof` is optional. -/
structure ProtoNewBlock where
  maybe_full : Option ProtoMaybeFull
  deriving DecidableEq

/-- Required-field extraction, from `proto_field` in the `p2p_proto` crate: a
missing field fails with an error naming the offending field. -/
def proto_field {α : Type} (field : Option α) (field_name : String) : Except String α :=
  match field with
  | some value => .ok value
  | none => .error ("Missing field " ++ field_name)

/-- Encoder for a consensus signature (derived `ToProtobuf`). -/
def ConsensusSignature.to_protobuf (sg : ConsensusSignature) : ProtoConsensusSignature :=
  { r := some sg.r, s := some sg.s }

/-- Decoder for a consensus signature (derived `TryFromProtobuf`). -/
def ConsensusSignature.try_from_protobuf (input : ProtoConsensusSignature)
    (field_name : String) : Except String ConsensusSignature := do
  let r ← proto_field input.r field_name
  let s ← proto_field input.s field_name
  pure { r := r, s := s }

/-- Encoder for a block id (derived `ToProtobuf`). -/
def BlockId.to_protobuf (b : BlockId) : ProtoBlockId :=
  { number := b.number, hash := some b.hash }

/-- Decoder for a block id (derived `TryFromProtobuf`). -/
def BlockId.try_from_protobuf (input : ProtoBlockId) (field_name : String) :
    Except String BlockId := do
  let h ← proto_field input.hash field_name
  pure { number := input.number, hash := h }

/-- Encoder for an iteration descriptor (derived `ToProtobuf`). -/
def Iteration.to_protobuf (it : Iteration) : ProtoIteration :=
  { start :=
      some (match it.start with
            | .Number n => .Number n
            | .Hash h => .Hash (some h)),
    direction := it.direction, step := it.step, limit := it.limit }

/-- Decoder for an iteration descriptor (derived `TryFromProtobuf`). -/
def Iteration.try_from_protobuf (input : ProtoIteration) (field_name : String) :
    Except String Iteration := do
  let st ← proto_field input.start field_name
  let st ← match st with
    | .Number n => pure (IterStart.Number n)
    | .Hash h => do
      let h ← proto_field h field_name
      pure (IterStart.Hash h)
  pure { start := st, direction := input.direction, step := input.step, limit := input.limit }

/-- Elementwise decoding of the repeated signatures submessage. -/
def decodeSignatures (field_name : String) :
    List ProtoConsensusSignature → Except String (List ConsensusSignature)
  | [] => .ok []
  | sg :: rest => do
    let a ← ConsensusSignature.try_from_protobuf sg field_name
    let as ← decodeSignatures field_name rest
    pure (a :: as)

/-- Encoder for a signed block header, from the derived `ToProtobuf` on
`SignedBlockHeader`: each field is encoded in declaration order; message
fields are wrapped, scalars copied, signatures encoded elementwise. -/
def SignedBlockHeader.to_protobuf (h : SignedBlockHeader) : ProtoSignedBlockHeader :=
  { block_hash := some h.block_hash
    parent_hash := some h.parent_hash
    number := h.number
    time := h.time
    sequencer_address := some h.sequencer_address
    state_diff_commitment := some h.state_diff_commitment
    state := some h.state
    transactions := some h.transactions
    events := some h.events
    receipts := some h.receipts
    protocol_version := h.protocol_version
    gas_price := some h.gas_price
    num_storage_diffs := h.num_storage_diffs
    num_nonce_updates := h.num_nonce_updates
    num_declared_classes := h.num_declared_classes
    num_deployed_contracts := h.num_deployed_contracts
    signatures := h.signatures.map ConsensusSignature.to_protobuf }

/-- Decoder for a signed block header, from the derived `TryFromProtobuf` on
`SignedBlockHeader`: every required message field is extracted with
`proto_field` and a missing one is a decode failure. -/
def SignedBlockHeader.try_from_protobuf (input : ProtoSignedBlockHeader)
    (field_name : String) : Except String SignedBlockHeader := do
  let block_hash ← proto_field input.block_hash field_name
  let parent_hash ← proto_field input.parent_hash field_name
  let sequencer_address ← proto_field input.sequencer_address field_name
  let state_diff_commitment ← proto_field input.state_diff_commitment field_name
  let state ← proto_field input.state field_name
  let transactions ← proto_field input.transactions field_name
  let events ← proto_field input.events field_name
  let receipts ← proto_field input.receipts field_name
  let gas_price ← proto_field input.gas_price field_name
  let signatures ← decodeSignatures field_name input.signatures
  pure { block_hash := block_hash
         parent_hash := parent_hash
         number := input.number
         time := input.time
         sequencer_address := sequencer_address
         state_diff_commitment := state_diff_commitment
         state := state
         transactions := transactions
         events := events
         receipts := receipts
         protocol_version := input.protocol_version
         gas_price := gas_price
         num_storage_diffs := input.num_storage_diffs
         num_nonce_updates := input.num_nonce_updates
         num_declared_classes := input.num_declared_classes
         num_deployed_contracts := input.num_deployed_contracts
         signatures := signatures }

/-- Encoder for a header request (derived `ToProtobuf`). -/
def BlockHeadersRequest.to_protobuf (r : BlockHeadersRequest) : ProtoBlockHeadersRequest :=
  { iteration := some r.iteration.to_protobuf }

/-- Decoder for a header request (derived `TryFromProtobuf`). -/
def BlockHeadersRequest.try_from_protobuf (input : ProtoBlockHeadersRequest)
    (field_name : String) : Except String BlockHeadersRequest := do
  let it ← proto_field input.iteration field_name
  let it ← Iteration.try_from_protobuf it field_name
  pure { iteration := it }

/-- Encoder for a header response, from `impl ToProtobuf for BlockHeadersResponse`
in `header.rs`: the `header_message` `oneof` is always populated. -/
def BlockHeadersResponse.to_protobuf : BlockHeadersResponse → ProtoBlockHeadersResponse
  | .Header h => { header_message := some (.Header h.to_protobuf) }
  | .Fin => { header_message := some .Fin }

/-- Decoder for a header response, from `impl TryFromProtobuf for
BlockHeadersResponse` in `header.rs`: an empty `header_message` fails via
`proto_field`, otherwise the payload is decoded. -/
def BlockHeadersResponse.try_from_protobuf (input : ProtoBlockHeadersResponse)
    (field_name : String) : Except String BlockHeadersResponse := do
  match ← proto_field input.header_message field_name with
  | .Header h => do
    let h ← SignedBlockHeader.try_from_protobuf h field_name
    pure (BlockHeadersResponse.Header h)
  | .Fin => pure BlockHeadersResponse.Fin

/-- Encoder for a new-block announcement, from `impl ToProtobuf for NewBlock`
in `header.rs`: the `maybe_full` `oneof` is always populated. -/
def NewBlock.to_protobuf : NewBlock → ProtoNewBlock
  | .Id b => { maybe_full := some (.Id b.to_protobuf) }
  | .Header h => { maybe_full := some (.Header h.to_protobuf) }

/-- Decoder for a new-block announcement, from `impl TryFromProtobuf for
NewBlock` in `header.rs`: an empty `maybe_full` fails via `proto_field`,
otherwise the selected payload is decoded. -/
def NewBlock.try_from_protobuf (input : ProtoNewBlock) (field_name : String) :
    Except String NewBlock := do
  match ← proto_field input.maybe_full field_name with
  | .Id i => do
    let b ← BlockId.try_from_protobuf i field_name
    pure (NewBlock.Id b)
  | .Header h => do
    let r ← BlockHeadersResponse.try_from_protobuf h field_name
    pure (NewBlock.Header r)

/-- Wire header whose `block_hash` required field is missing while every other
field is populated; its enclosing `oneof` selectors are present. -/
def protoHeaderMissingBlockHash : ProtoSignedBlockHeader :=
  { block_hash := none
    parent_hash := some 0
    number := 0
    time := 0
    sequencer_address := some 0
    state_diff_commitment := some 0
    state := some 0
    transactions := some 0
    events := some 0
    receipts := some 0
    protocol_version := ""
    gas_price := some 0
    num_storage_diffs := 0
    num_nonce_updates := 0
    num_declared_classes := 0
    num_deployed_contracts := 0
    signatures := [] }

/-! Helper lemmas. -/

/-- Bind on a successful `Except` computation reduces to its continuation. -/
theorem ok_bind {ε α β : Type} (a : α) (f : α → Except ε β) :
    (Except.ok a : Except ε α) >>= f = f a := rfl

/-- A character list leads any extension of itself. -/
theorem charsLead_self_append (n r : List Char) : charsLead n (n ++ r) = true := by
  induction n with
  | nil => rfl
  | cons a as ih => simp [charsLead, ih]

/-- The empty character list is contained in every character list. -/
theorem charsContain_nil (xs : List Char) : charsContain [] xs = true := by
  cases xs <;> simp [charsContain, charsLead, List.isEmpty]

/-- A character list is contained in any list that sandwiches it. -/
theorem charsContain_sandwich (l n r : List Char) :
    charsContain n (l ++ (n ++ r)) = true := by
  induction l with
  | nil =>
    cases n with
    | nil => simpa using charsContain_nil r
    | cons a as =>
      simp only [List.nil_append, charsContain, Bool.or_eq_true]
      exact Or.inl (by simpa using charsLead_self_append (a :: as) r)
  | cons c cs ih => simp [charsContain, ih]

/-- The debug formatting of a Starknet error contains its escaped message. -/
theorem containsSub_debugFmt (e : StarknetError) :
    containsSub e.debugFmt (debugEscape e.message) = true := by
  have h := charsContain_sandwich
    (("StarknetError \x7b code: " ++ e.code.debugName ++ ", message: \"").data)
    (debugEscape e.message).data ("\" \x7d".data)
  unfold containsSub StarknetError.debugFmt
  simpa [String.data_append, List.append_assoc] using h

/-- Consensus signatures decode back from their encoding. -/
theorem consensusSignature_roundtrip (sg : ConsensusSignature) (fn : String) :
    ConsensusSignature.try_from_protobuf sg.to_protobuf fn = .ok sg := by
  cases sg
  rfl

/-- The repeated signatures submessage decodes back from its encoding. -/
theorem decodeSignatures_roundtrip (l : List ConsensusSignature) (fn : String) :
    decodeSignatures fn (l.map ConsensusSignature.to_protobuf) = .ok l := by
  induction l with
  | nil => rfl
  | cons a as ih =>
    simp only [List.map_cons, decodeSignatures, consensusSignature_roundtrip, ok_bind, ih]
    rfl

/-- Signed block headers decode back from their encoding. -/
theorem signedBlockHeader_roundtrip (h : SignedBlockHeader) (fn : String) :
    SignedBlockHeader.try_from_protobuf h.to_protobuf fn = .ok h := by
  cases h
  simp only [SignedBlockHeader.to_protobuf, SignedBlockHeader.try_from_protobuf, proto_field,
    ok_bind, decodeSignatures_roundtrip]
  rfl

/-- Block ids decode back from their encoding. -/
theorem blockId_roundtrip (b : BlockId) (fn : String) :
    BlockId.try_from_protobuf b.to_protobuf fn = .ok b := by
  cases b
  rfl

/-- Iteration descriptors decode back from their encoding. -/
theorem iteration_roundtrip (it : Iteration) (fn : String) :
    Iteration.try_from_protobuf it.to_protobuf fn = .ok it := by
  obtain ⟨st, d, st', l⟩ := it
  cases st <;> rfl

/-- Header requests decode back from their encoding. -/
theorem blockHeadersRequest_roundtrip (r : BlockHeadersRequest) (fn : String) :
    BlockHeadersRequest.try_from_protobuf r.to_protobuf fn = .ok r := by
  obtain ⟨it⟩ := r
  simp only [BlockHeadersRequest.to_protobuf, BlockHeadersRequest.try_from_protobuf,
    proto_field, ok_bind, iteration_roundtrip]
  rfl

/-- Header responses decode back from their encoding. -/
theorem blockHeadersResponse_roundtrip (resp : BlockHeadersResponse) (fn : String) :
    BlockHeadersResponse.try_from_protobuf resp.to_protobuf fn = .ok resp := by
  cases resp with
  | Header h =>
    simp only [BlockHeadersResponse.to_protobuf, BlockHeadersResponse.try_from_protobuf,
      proto_field, ok_bind, signedBlockHeader_roundtrip]
    rfl
  | Fin => rfl

/-- New-block announcements decode back from their encoding. -/
theorem newBlock_roundtrip (nb : NewBlock) (fn : String) :
    NewBlock.try_from_protobuf nb.to_protobuf fn = .ok nb := by
  cases nb with
  | Id b =>
    simp only [NewBlock.to_protobuf, NewBlock.try_from_protobuf, proto_field, ok_bind,
      blockId_roundtrip]
    rfl
  | Header h =>
    simp only [NewBlock.to_protobuf, NewBlock.try_from_protobuf, proto_field, ok_bind,
      blockHeadersResponse_roundtrip]
    rfl

/-- Bind on a failed `Except` computation stays failed. -/
theorem err_bind {ε α β : Type} (e : ε) (f : α → Except ε β) :
    (Except.error e : Except ε α) >>= f = .error e := rfl

/-- Method-form bind on a failed `Except` computation stays failed. -/
theorem except_bind_err {ε α β : Type} (e : ε) (f : α → Except ε β) :
    (Except.error e : Except ε α).bind f = .error e := rfl

/-- Method-form bind on a successful `Except` computation reduces. -/
theorem except_bind_ok {ε α β : Type} (a : α) (f : α → Except ε β) :
    (Except.ok a : Except ε α).bind f = f a := rfl

/-- A failed first parameter makes the two-parameter binding invalid-params. -/
theorem bindTwo_left_none {α β : Type} (y : Option β) :
    bindTwo (none : Option α) y = .error .invalidParams := rfl

/-- A failed second parameter makes the two-parameter binding invalid-params. -/
theorem bindTwo_right_none {α β : Type} (x : Option α) :
    bindTwo x (none : Option β) = .error .invalidParams := by
  cases x <;> rfl

/-- A failed third parameter makes the three-parameter binding invalid-params. -/
theorem bindThree_third_none {α β γ : Type} (x : Option α) (y : Option β) :
    bindThree x y (none : Option γ) = .error .invalidParams := by
  cases x <;> cases y <;> rfl

/-- C1: for every `StarknetError` passed through the error translator, the
resulting RPC error code is exactly the one in the spec's translation table —
`OutOfRangeBlockHash` and `BlockNotFound` yield 24, `OutOfRangeContractAddress`
and `UninitializedContract` yield 20, `OutOfRangeTransactionHash` yields 25,
`OutOfRangeStorageKey` yields 23, `TransactionFailed` yields 22 and
`EntryPointNotFound` yields 21, regardless of the accompanying message. -/
theorem translator_code_table (msg : String) :
    ((SequencerError.StarknetError ⟨.OutOfRangeBlockHash, msg⟩).toRpcError).rpcCode = 24 ∧
    ((SequencerError.StarknetError ⟨.BlockNotFound, msg⟩).toRpcError).rpcCode = 24 ∧
    ((SequencerError.StarknetError ⟨.OutOfRangeContractAddress, msg⟩).toRpcError).rpcCode = 20 ∧
    ((SequencerError.StarknetError ⟨.UninitializedContract, msg⟩).toRpcError).rpcCode = 20 ∧
    ((SequencerError.StarknetError ⟨.OutOfRangeTransactionHash, msg⟩).toRpcError).rpcCode = 25 ∧
    ((SequencerError.StarknetError ⟨.OutOfRangeStorageKey, msg⟩).toRpcError).rpcCode = 23 ∧
    ((SequencerError.StarknetError ⟨.TransactionFailed, msg⟩).toRpcError).rpcCode = 22 ∧
    ((SequencerError.StarknetError ⟨.EntryPointNotFound, msg⟩).toRpcError).rpcCode = 21 :=
  ⟨rfl, rfl, rfl, rfl, rfl, rfl, rfl, rfl⟩

/-- C2: for every `StarknetError` with code `MalformedRequest`, the translator
produces RPC error code 26 (Invalid block number) exactly when the message
contains the substring "Block ID should be in the range", and the generic
call-failed error otherwise. -/
theorem malformed_request_carveout (msg : String) :
    (SequencerError.StarknetError ⟨.MalformedRequest, msg⟩).toRpcError =
      (if containsSub msg "Block ID should be in the range" then
        RpcError.custom 26 "Invalid block number"
      else
        RpcError.callFailed (StarknetError.debugFmt ⟨.MalformedRequest, msg⟩)) := rfl

/-- C3: decoding the protobuf encoding of a `SignedBlockHeader`, `NewBlock`,
`BlockHeadersRequest` or `BlockHeadersResponse` succeeds and returns the
original value. -/
theorem protobuf_roundtrip (h : SignedBlockHeader) (nb : NewBlock)
    (req : BlockHeadersRequest) (resp : BlockHeadersResponse) (fn : String) :
    SignedBlockHeader.try_from_protobuf h.to_protobuf fn = .ok h ∧
    NewBlock.try_from_protobuf nb.to_protobuf fn = .ok nb ∧
    BlockHeadersRequest.try_from_protobuf req.to_protobuf fn = .ok req ∧
    BlockHeadersResponse.try_from_protobuf resp.to_protobuf fn = .ok resp :=
  ⟨signedBlockHeader_roundtrip h fn, newBlock_roundtrip nb fn,
   blockHeadersRequest_roundtrip req fn, blockHeadersResponse_roundtrip resp fn⟩

/-- C4 (amended): decoding a wire `NewBlock` whose `maybe_full` selector is
empty, or a wire `BlockHeadersResponse` whose `header_message` selector is
empty, returns a decode error rather than any value; absence of the `oneof`
always takes the error path (the error path may, however, also be taken when
the selector is present but its payload fails to decode). -/
theorem empty_oneof_decode_fails (fn : String) :
    (NewBlock.try_from_protobuf ⟨none⟩ fn).toOption = none ∧
    (BlockHeadersResponse.try_from_protobuf ⟨none⟩ fn).toOption = none :=
  ⟨rfl, rfl⟩

/-- C4 counterexample: a wire `BlockHeadersResponse` whose `header_message`
selector is present but whose header payload is missing its required
`block_hash` field still fails to decode, so the error path of
`try_from_protobuf` is not taken exactly when the `oneof` field is absent. -/
theorem oneof_error_not_exact_counterexample :
    (ProtoBlockHeadersResponse.mk
        (some (.Header protoHeaderMissingBlockHash))).header_message ≠ none ∧
    (BlockHeadersResponse.try_from_protobuf
        ⟨some (.Header protoHeaderMissingBlockHash)⟩ "hdr").toOption = none :=
  ⟨fun hEq => Option.noConfusion hEq, rfl⟩

/-- C5: for every registered RPC method and argument tuple, invoking the
method with positional parameters and with named parameters keyed by the
documented parameter names yields identical responses; in particular
`starknet_getStateUpdateByHash` accepts its single argument either as a bare
positional block hash or as the named field `block_hash` with the same result. -/
theorem dispatch_duality (api : RpcApi) (a b c : Json) :
    dispatch api "starknet_getBlockByHash" (.arr [a]) =
      dispatch api "starknet_getBlockByHash" (.obj [("block_hash", a)]) ∧
    dispatch api "starknet_getBlockByHash" (.arr [a, b]) =
      dispatch api "starknet_getBlockByHash"
        (.obj [("block_hash", a), ("requested_scope", b)]) ∧
    dispatch api "starknet_getBlockByNumber" (.arr [a]) =
      dispatch api "starknet_getBlockByNumber" (.obj [("block_number", a)]) ∧
    dispatch api "starknet_getBlockByNumber" (.arr [a, b]) =
      dispatch api "starknet_getBlockByNumber"
        (.obj [("block_number", a), ("requested_scope", b)]) ∧
    dispatch api "starknet_getStateUpdateByHash" (.arr [a]) =
      dispatch api "starknet_getStateUpdateByHash" (.obj [("block_hash", a)]) ∧
    dispatch api "starknet_getStorageAt" (.arr [a, b, c]) =
      dispatch api "starknet_getStorageAt"
        (.obj [("contract_address", a), ("key", b), ("block_hash", c)]) ∧
    dispatch api "starknet_getTransactionByHash" (.arr [a]) =
      dispatch api "starknet_getTransactionByHash" (.obj [("transaction_hash", a)]) ∧
    dispatch api "starknet_getTransactionByBlockHashAndIndex" (.arr [a, b]) =
      dispatch api "starknet_getTransactionByBlockHashAndIndex"
        (.obj [("block_hash", a), ("index", b)]) ∧
    dispatch api "starknet_getTransactionByBlockNumberAndIndex" (.arr [a, b]) =
      dispatch api "starknet_getTransactionByBlockNumberAndIndex"
        (.obj [("block_number", a), ("index", b)]) ∧
    dispatch api "starknet_getTransactionReceipt" (.arr [a]) =
      dispatch api "starknet_getTransactionReceipt" (.obj [("transaction_hash", a)]) ∧
    dispatch api "starknet_getCode" (.arr [a]) =
      dispatch api "starknet_getCode" (.obj [("contract_address", a)]) ∧
    dispatch api "starknet_getBlockTransactionCountByHash" (.arr [a]) =
      dispatch api "starknet_getBlockTransactionCountByHash" (.obj [("block_hash", a)]) ∧
    dispatch api "starknet_getBlockTransactionCountByNumber" (.arr [a]) =
      dispatch api "starknet_getBlockTransactionCountByNumber" (.obj [("block_number", a)]) ∧
    dispatch api "starknet_call" (.arr [a, b]) =
      dispatch api "starknet_call" (.obj [("request", a), ("block_hash", b)]) ∧
    dispatch api "starknet_blockNumber" (.arr []) =
      dispatch api "starknet_blockNumber" (.obj []) ∧
    dispatch api "starknet_chainId" (.arr []) =
      dispatch api "starknet_chainId" (.obj []) ∧
    dispatch api "starknet_pendingTransactions" (.arr []) =
      dispatch api "starknet_pendingTransactions" (.obj []) ∧
    dispatch api "starknet_protocolVersion" (.arr []) =
      dispatch api "starknet_protocolVersion" (.obj []) ∧
    dispatch api "starknet_syncing" (.arr []) =
      dispatch api "starknet_syncing" (.obj []) := by
  refine ⟨?_, ?_, ?_, ?_, ?_, ?_, ?_, ?_, ?_, ?_, ?_, ?_, ?_, ?_, ?_, ?_, ?_, ?_, ?_⟩ <;> rfl

/-- C6 (amended): a syntactically malformed block hash or block number passed
to a block-taking method is rejected by the dispatcher with the JSON-RPC
invalid-params error before — and without — any call to a backend handler (the
result does not depend on the handler context); codes 24 and 26 are produced
by the error translator for sequencer-reported errors, not by this rejection. -/
theorem malformed_block_ref_invalid_params (api api₂ : RpcApi) (s : String)
    (j r k q : Json)
    (hs : parseBlockHashOrTag (.str s) = none)
    (hj : parseBlockNumberOrTag j = none) :
    dispatch api "starknet_getBlockByHash" (.arr [.str s]) = .error .invalidParams ∧
    dispatch api "starknet_getBlockByHash" (.arr [.str s]) =
      dispatch api₂ "starknet_getBlockByHash" (.arr [.str s]) ∧
    dispatch api "starknet_getStateUpdateByHash" (.arr [.str s]) = .error .invalidParams ∧
    dispatch api "starknet_getStateUpdateByHash" (.arr [.str s]) =
      dispatch api₂ "starknet_getStateUpdateByHash" (.arr [.str s]) ∧
    dispatch api "starknet_getStorageAt" (.arr [q, k, .str s]) = .error .invalidParams ∧
    dispatch api "starknet_getStorageAt" (.arr [q, k, .str s]) =
      dispatch api₂ "starknet_getStorageAt" (.arr [q, k, .str s]) ∧
    dispatch api "starknet_getTransactionByBlockHashAndIndex" (.arr [.str s, r]) =
      .error .invalidParams ∧
    dispatch api "starknet_getTransactionByBlockHashAndIndex" (.arr [.str s, r]) =
      dispatch api₂ "starknet_getTransactionByBlockHashAndIndex" (.arr [.str s, r]) ∧
    dispatch api "starknet_getBlockTransactionCountByHash" (.arr [.str s]) =
      .error .invalidParams ∧
    dispatch api "starknet_getBlockTransactionCountByHash" (.arr [.str s]) =
      dispatch api₂ "starknet_getBlockTransactionCountByHash" (.arr [.str s]) ∧
    dispatch api "starknet_call" (.arr [r, .str s]) = .error .invalidParams ∧
    dispatch api "starknet_call" (.arr [r, .str s]) =
      dispatch api₂ "starknet_call" (.arr [r, .str s]) ∧
    dispatch api "starknet_getBlockByNumber" (.arr [j]) = .error .invalidParams ∧
    dispatch api "starknet_getBlockByNumber" (.arr [j]) =
      dispatch api₂ "starknet_getBlockByNumber" (.arr [j]) ∧
    dispatch api "starknet_getTransactionByBlockNumberAndIndex" (.arr [j, r]) =
      .error .invalidParams ∧
    dispatch api "starknet_getTransactionByBlockNumberAndIndex" (.arr [j, r]) =
      dispatch api₂ "starknet_getTransactionByBlockNumberAndIndex" (.arr [j, r]) ∧
    dispatch api "starknet_getBlockTransactionCountByNumber" (.arr [j]) =
      .error .invalidParams ∧
    dispatch api "starknet_getBlockTransactionCountByNumber" (.arr [j]) =
      dispatch api₂ "starknet_getBlockTransactionCountByNumber" (.arr [j]) := by
  have h1 : ∀ ap : RpcApi,
      dispatch ap "starknet_getBlockByHash" (.arr [.str s]) = .error .invalidParams := by
    intro ap
    simp [dispatch, args1opt, bindTwo, requireParam, hs, except_bind_err]
  have h2 : ∀ ap : RpcApi,
      dispatch ap "starknet_getStateUpdateByHash" (.arr [.str s]) = .error .invalidParams := by
    intro ap
    simp [dispatch, requireParam, hs, except_bind_err]
  have h3 : ∀ ap : RpcApi,
      dispatch ap "starknet_getStorageAt" (.arr [q, k, .str s]) = .error .invalidParams := by
    intro ap
    simp [dispatch, args3, hs, bindThree_third_none, except_bind_err]
  have h4 : ∀ ap : RpcApi,
      dispatch ap "starknet_getTransactionByBlockHashAndIndex" (.arr [.str s, r]) =
        .error .invalidParams := by
    intro ap
    simp [dispatch, args2, hs, bindTwo_left_none, except_bind_err]
  have h5 : ∀ ap : RpcApi,
      dispatch ap "starknet_getBlockTransactionCountByHash" (.arr [.str s]) =
        .error .invalidParams := by
    intro ap
    simp [dispatch, args1, requireParam, hs, except_bind_err]
  have h6 : ∀ ap : RpcApi,
      dispatch ap "starknet_call" (.arr [r, .str s]) = .error .invalidParams := by
    intro ap
    simp [dispatch, args2, hs, bindTwo_right_none, except_bind_err]
  have h7 : ∀ ap : RpcApi,
      dispatch ap "starknet_getBlockByNumber" (.arr [j]) = .error .invalidParams := by
    intro ap
    simp [dispatch, args1opt, bindTwo, requireParam, hj, except_bind_err]
  have h8 : ∀ ap : RpcApi,
      dispatch ap "starknet_getTransactionByBlockNumberAndIndex" (.arr [j, r]) =
        .error .invalidParams := by
    intro ap
    simp [dispatch, args2, hj, bindTwo_left_none, except_bind_err]
  have h9 : ∀ ap : RpcApi,
      dispatch ap "starknet_getBlockTransactionCountByNumber" (.arr [j]) =
        .error .invalidParams := by
    intro ap
    simp [dispatch, args1, requireParam, hj, except_bind_err]
  exact ⟨h1 api, (h1 api).trans (h1 api₂).symm, h2 api, (h2 api).trans (h2 api₂).symm,
    h3 api, (h3 api).trans (h3 api₂).symm, h4 api, (h4 api).trans (h4 api₂).symm,
    h5 api, (h5 api).trans (h5 api₂).symm, h6 api, (h6 api).trans (h6 api₂).symm,
    h7 api, (h7 api).trans (h7 api₂).symm, h8 api, (h8 api).trans (h8 api₂).symm,
    h9 api, (h9 api).trans (h9 api₂).symm⟩

/-- C6 witness: a concretely malformed hash and number are rejected with
invalid-params by all nine block-reference-taking methods, identically under
two different handler contexts. -/
theorem malformed_block_ref_invalid_params_witness :
    dispatch failApi "starknet_getBlockByHash" (.arr [.str "not-a-hash"]) =
      .error .invalidParams ∧
    dispatch failApi "starknet_getBlockByHash" (.arr [.str "not-a-hash"]) =
      dispatch emptyApi "starknet_getBlockByHash" (.arr [.str "not-a-hash"]) ∧
    dispatch failApi "starknet_getStateUpdateByHash" (.arr [.str "not-a-hash"]) =
      .error .invalidParams ∧
    dispatch failApi "starknet_getStateUpdateByHash" (.arr [.str "not-a-hash"]) =
      dispatch emptyApi "starknet_getStateUpdateByHash" (.arr [.str "not-a-hash"]) ∧
    dispatch failApi "starknet_getStorageAt"
        (.arr [.str "0x1", .str "0x1", .str "not-a-hash"]) = .error .invalidParams ∧
    dispatch failApi "starknet_getStorageAt"
        (.arr [.str "0x1", .str "0x1", .str "not-a-hash"]) =
      dispatch emptyApi "starknet_getStorageAt"
        (.arr [.str "0x1", .str "0x1", .str "not-a-hash"]) ∧
    dispatch failApi "starknet_getTransactionByBlockHashAndIndex"
        (.arr [.str "not-a-hash", .num 0]) = .error .invalidParams ∧
    dispatch failApi "starknet_getTransactionByBlockHashAndIndex"
        (.arr [.str "not-a-hash", .num 0]) =
      dispatch emptyApi "starknet_getTransactionByBlockHashAndIndex"
        (.arr [.str "not-a-hash", .num 0]) ∧
    dispatch failApi "starknet_getBlockTransactionCountByHash"
        (.arr [.str "not-a-hash"]) = .error .invalidParams ∧
    dispatch failApi "starknet_getBlockTransactionCountByHash"
        (.arr [.str "not-a-hash"]) =
      dispatch emptyApi "starknet_getBlockTransactionCountByHash"
        (.arr [.str "not-a-hash"]) ∧
    dispatch failApi "starknet_call" (.arr [.num 0, .str "not-a-hash"]) =
      .error .invalidParams ∧
    dispatch failApi "starknet_call" (.arr [.num 0, .str "not-a-hash"]) =
      dispatch emptyApi "starknet_call" (.arr [.num 0, .str "not-a-hash"]) ∧
    dispatch failApi "starknet_getBlockByNumber" (.arr [.bool true]) =
      .error .invalidParams ∧
    dispatch failApi "starknet_getBlockByNumber" (.arr [.bool true]) =
      dispatch emptyApi "starknet_getBlockByNumber" (.arr [.bool true]) ∧
    dispatch failApi "starknet_getTransactionByBlockNumberAndIndex"
        (.arr [.bool true, .num 0]) = .error .invalidParams ∧
    dispatch failApi "starknet_getTransactionByBlockNumberAndIndex"
        (.arr [.bool true, .num 0]) =
      dispatch emptyApi "starknet_getTransactionByBlockNumberAndIndex"
        (.arr [.bool true, .num 0]) ∧
    dispatch failApi "starknet_getBlockTransactionCountByNumber"
        (.arr [.bool true]) = .error .invalidParams ∧
    dispatch failApi "starknet_getBlockTransactionCountByNumber"
        (.arr [.bool true]) =
      dispatch emptyApi "starknet_getBlockTransactionCountByNumber"
        (.arr [.bool true]) :=
  malformed_block_ref_invalid_params failApi emptyApi "not-a-hash" (.bool true)
    (.num 0) (.str "0x1") (.str "0x1") (by decide) rfl

/-- C6 counterexample: a syntactically malformed block hash (or number) makes
the dispatcher answer with the JSON-RPC invalid-params error, whose numeric
code is -32602 — not 24 (respectively not 26) as the claim states. -/
theorem malformed_block_ref_code_counterexample :
    dispatch emptyApi "starknet_getBlockByHash" (.arr [.str "0xzz"]) =
      .error .invalidParams ∧
    RpcError.invalidParams.rpcCode ≠ 24 ∧
    dispatch emptyApi "starknet_getBlockByNumber" (.arr [.str "0xzz"]) =
      .error .invalidParams ∧
    RpcError.invalidParams.rpcCode ≠ 26 :=
  ⟨rfl, by decide, rfl, by decide⟩

/-- C7: the `key` parameter of `starknet_getStorageAt` is deserialized into a
256-bit container with no field-order range check, and only afterwards
range-checked by the handler: every hex key below `2 ^ 256` parses, and every
key at or above the field order is answered with RPC error 23
(Invalid storage key) rather than a parameter-parse error. -/
theorem overflowing_storage_key
    (backend : Nat → Nat → BlockHashOrTag → Except RpcError Json)
    (addr key : Nat) (bh : BlockHashOrTag) (s : String)
    (hparse : parseHexNat s = some key) (hwide : key < 2 ^ 256)
    (hover : starkPrime ≤ key) :
    parseOverflowingKey (.str s) = some key ∧
    get_storage_at_model backend addr key bh =
      .error (.custom 23 "Invalid storage key") ∧
    dispatch (storageApi backend) "starknet_getStorageAt"
        (.arr [.str "0x1", .str s, .str "latest"]) =
      .error (.custom 23 "Invalid storage key") := by
  have hnarrow : ¬ key < 2 ^ 251 := by
    have h251 : (2 : ℕ) ^ 251 < starkPrime := by norm_num [starkPrime]
    exact Nat.not_lt.mpr (le_trans h251.le hover)
  have hp : parseOverflowingKey (.str s) = some key := by
    simp only [parseOverflowingKey, hparse]
    exact if_pos hwide
  have hgAll : ∀ (a : Nat) (b : BlockHashOrTag),
      get_storage_at_model backend a key b = .error (.custom 23 "Invalid storage key") := by
    intro a b
    unfold get_storage_at_model
    rw [if_neg hnarrow]
    rfl
  have ha : parseFeltJson (.str "0x1") = some 1 := by decide
  have hl : parseBlockHashOrTag (.str "latest") = some (.Tag .Latest) := rfl
  refine ⟨hp, hgAll addr bh, ?_⟩
  simp [dispatch, args3, bindThree, requireParam, ha, hp, hl, storageApi, except_bind_ok,
    hgAll 1 (.Tag .Latest)]

/-- C7 witness: the 256-bit key `2 ^ 252` (which exceeds the field order)
parses and is answered with RPC error 23, also through the dispatcher. -/
theorem overflowing_storage_key_witness :
    parseOverflowingKey
        (.str "0x1000000000000000000000000000000000000000000000000000000000000000") =
      some (2 ^ 252) ∧
    get_storage_at_model (fun _ _ _ => .ok .null) 0 (2 ^ 252) (.Tag .Latest) =
      .error (.custom 23 "Invalid storage key") ∧
    dispatch (storageApi (fun _ _ _ => .ok .null)) "starknet_getStorageAt"
        (.arr [.str "0x1",
          .str "0x1000000000000000000000000000000000000000000000000000000000000000",
          .str "latest"]) =
      .error (.custom 23 "Invalid storage key") :=
  overflowing_storage_key (fun _ _ _ => .ok .null) 0 (2 ^ 252) (.Tag .Latest)
    "0x1000000000000000000000000000000000000000000000000000000000000000"
    (by decide) (by norm_num) (by norm_num [starkPrime])

/-- C8 (amended): deserialization, parse and transport errors, and every
`StarknetError` not covered by the seven-code table (`SchemaValidationError`,
or `MalformedRequest` without the block-range substring), translate to the
generic call-failed RPC error; the original message is preserved verbatim for
the deserialization, parse and transport variants, while for Starknet errors
the message occurs in the call-failed text in `Debug`-escaped form. -/
theorem generic_failure_message_preserved (m : String) (e : StarknetError) :
    (SequencerError.DeserializationError m).toRpcError = .callFailed m ∧
    (SequencerError.ParseError m).toRpcError = .callFailed m ∧
    (SequencerError.TransportError m).toRpcError = .callFailed m ∧
    (SequencerError.StarknetError ⟨.SchemaValidationError, m⟩).toRpcError =
      .callFailed (StarknetError.debugFmt ⟨.SchemaValidationError, m⟩) ∧
    containsSub (StarknetError.debugFmt e) (debugEscape e.message) = true ∧
    (containsSub m "Block ID should be in the range" = false →
      (SequencerError.StarknetError ⟨.MalformedRequest, m⟩).toRpcError =
        .callFailed (StarknetError.debugFmt ⟨.MalformedRequest, m⟩)) := by
  refine ⟨rfl, rfl, rfl, rfl, containsSub_debugFmt e, fun hNo => ?_⟩
  simp [SequencerError.toRpcError, hNo]

/-- C8 witness: a `MalformedRequest` whose message lacks the block-range
substring falls through to the generic call-failed error. -/
theorem generic_failure_message_preserved_witness :
    (SequencerError.StarknetError ⟨.MalformedRequest, "oops"⟩).toRpcError =
      .callFailed (StarknetError.debugFmt ⟨.MalformedRequest, "oops"⟩) :=
  (generic_failure_message_preserved "oops" ⟨.SchemaValidationError, "x"⟩).2.2.2.2.2
    (by decide)

/-- C8 counterexample: a Starknet error whose message contains a quote still
translates to the generic call-failed error, but because the `Debug`
formatting escapes the quote the original message does not occur verbatim in
the produced error text. -/
theorem verbatim_message_not_preserved_counterexample :
    (SequencerError.StarknetError ⟨.SchemaValidationError, "a\"b"⟩).toRpcError =
      .callFailed (StarknetError.debugFmt ⟨.SchemaValidationError, "a\"b"⟩) ∧
    containsSub (StarknetError.debugFmt ⟨.SchemaValidationError, "a\"b"⟩) "a\"b" = false :=
  ⟨rfl, by decide⟩

/-- C9: the `starknet_syncing` method dispatches to the `chain_id` handler,
so for every handler context and parameter it returns exactly the result of
`starknet_chainId`. -/
theorem syncing_dispatches_to_chain_id (api : RpcApi) (params : Json) :
    dispatch api "starknet_syncing" params = dispatch api "starknet_chainId" params := rfl

/-- C10: for every `StarknetError` whose code is not `MalformedRequest`, the
numeric RPC code produced by the translator depends only on the code: any two
messages yield the same numeric code. -/
theorem code_determines_rpc_code (c : StarknetErrorCode) (m₁ m₂ : String)
    (h : c ≠ .MalformedRequest) :
    ((SequencerError.StarknetError ⟨c, m₁⟩).toRpcError).rpcCode =
    ((SequencerError.StarknetError ⟨c, m₂⟩).toRpcError).rpcCode := by
  cases c <;> first | rfl | exact absurd rfl h

/-- C10 witness: two different messages under `BlockNotFound` give equal codes. -/
theorem code_determines_rpc_code_witness :
    ((SequencerError.StarknetError ⟨.BlockNotFound, "a"⟩).toRpcError).rpcCode =
    ((SequencerError.StarknetError ⟨.BlockNotFound, "b"⟩).toRpcError).rpcCode :=
  code_determines_rpc_code .BlockNotFound "a" "b" (by decide)

end Pathfinder
